import Mathlib

/-!
Verification of the backup-schedule novaclient extension
(`rax_backup_schedule_python_novaclient_ext/__init__.py`).

The file embeds, as executable Lean definitions, the module constants
`DAY_CHOICES` / `HOUR_CHOICES`, the helper `pretty_choice_list`, the
resource method `BackupSchedule.update`, the manager operations
`get` / `create` / `update` / `delete`, and the two CLI commands
`do_backup_schedule` and `do_backup_schedule_delete` together with the
argument declarations they carry (`--enable` and `--disable`, `--weekly`,
`--daily`, `--rotation`).  HTTP traffic is represented by a `Request`
value per issued request; JSON documents by association lists of
`JVal` values.
-/

namespace RaxBackupSchedule

/-- `DAY_CHOICES` from the module: the 8 accepted weekly values. -/
def DAY_CHOICES : List String :=
  ["DISABLED", "SUNDAY", "MONDAY", "TUESDAY", "WEDNESDAY",
   "THURSDAY", "FRIDAY", "SATURDAY"]

/-- `HOUR_CHOICES` from the module: the 13 accepted daily values. -/
def HOUR_CHOICES : List String :=
  ["DISABLED", "H_0000_0200", "H_0200_0400", "H_0400_0600",
   "H_0600_0800", "H_0800_1000", "H_1000_1200", "H_1200_1400",
   "H_1400_1600", "H_1600_1800", "H_1800_2000", "H_2000_2200",
   "H_2200_0000"]

/-- `pretty_choice_list(l)`: comma-separated single-quoted items
(the Python is a join over a generator of quoted strings). -/
def pretty_choice_list (l : List String) : String :=
  String.intercalate ", " (l.map (fun i => "\x27" ++ i ++ "\x27"))

/-- Python's `str.upper` on the ASCII strings this plugin handles:
upper-case every character. -/
def py_upper (s : String) : String :=
  String.mk (s.data.map Char.toUpper)

/-- A JSON-ish scalar as it appears in the schedule documents: the code
puts booleans (`enabled`), strings (`weekly`, `daily`, and the CLI's
`rotation`, kept as the raw argument string) and integers (the default
`rotation=0`) into the same dict. -/
inductive JVal : Type where
  | jBool : Bool → JVal
  | jStr : String → JVal
  | jInt : Int → JVal
deriving DecidableEq

/-- A flat JSON object, in insertion order. -/
abbrev JDoc := List (String × JVal)

/-- Python dict lookup on an association list (keys here are distinct,
so first match is the match). -/
def dictLookup {α : Type} (k : String) : List (String × α) → Option α
  | [] => none
  | (k2, v) :: rest => if k2 = k then some v else dictLookup k rest

/-- One HTTP request issued by the plugin.  A `post` body is the
outer dict (here always a single `backupSchedule` key). -/
inductive Request : Type where
  | get : String → Request
  | post : String → List (String × JDoc) → Request
  | del : String → Request
deriving DecidableEq

/-- `'/servers/%s/backup_schedule' % server.id`, the one endpoint. -/
def schedule_url (serverId : String) : String :=
  "/servers/" ++ serverId ++ "/backup_schedule"

/-- `BackupScheduleManager.get`: issues the GET and builds the resource
from the value under the response's `backupSchedule` key
(`self._get(url, 'backupSchedule')`). -/
def BackupScheduleManager.get (serverId : String)
    (response : List (String × JDoc)) : Request × Option JDoc :=
  (Request.get (schedule_url serverId), dictLookup "backupSchedule" response)

/-- `BackupScheduleManager.create`: builds
`dict(enabled=..., weekly=..., daily=..., rotation=...)` and POSTs
`dict(backupSchedule=backup_schedule)` to the schedule endpoint. -/
def BackupScheduleManager.create (serverId : String)
    (enabled weekly daily rotation : JVal) : Request :=
  Request.post (schedule_url serverId)
    [("backupSchedule",
      [("enabled", enabled), ("weekly", weekly),
       ("daily", daily), ("rotation", rotation)])]

/-- `update = create` (line 103 of the module): the same function object. -/
def BackupScheduleManager.update : String → JVal → JVal → JVal → JVal → Request :=
  BackupScheduleManager.create

/-- `BackupScheduleManager.delete`: `self._delete(url)`. -/
def BackupScheduleManager.delete (serverId : String) : Request :=
  Request.del (schedule_url serverId)

/-- The keyword arguments actually passed to `BackupSchedule.update`
(`**backup`): any subset of the four fields. -/
structure UpdateKwargs : Type where
  enabled : Option JVal
  weekly : Option JVal
  daily : Option JVal
  rotation : Option JVal
deriving DecidableEq

/-- `BackupSchedule.update(self, enabled=True, weekly='disabled',
daily='disabled', rotation=0)`: a missing keyword gets the literal
default from the signature — the resource's own fetched attributes
(`info`) are never consulted — and the four values are forwarded to
`manager.create`. -/
def BackupSchedule.update (server : String) (info : JDoc)
    (kw : UpdateKwargs) : Request :=
  BackupScheduleManager.create server
    (kw.enabled.getD (JVal.jBool true))
    (kw.weekly.getD (JVal.jStr "disabled"))
    (kw.daily.getD (JVal.jStr "disabled"))
    (kw.rotation.getD (JVal.jInt 0))

/-- `BackupSchedule.delete`: `self.manager.delete(server=self.server)`. -/
def BackupSchedule.delete (server : String) : Request :=
  BackupScheduleManager.delete server

/-- The parsed CLI arguments of `do_backup_schedule`: `enabled` is set
by `--enable` or `--disable` (default `None`), `weekly`/`daily`/`rotation`
are optional strings (argparse stores `--rotation` as a plain string,
no `type=` conversion). -/
structure Args : Type where
  server : String
  enabled : Option Bool
  weekly : Option String
  daily : Option String
  rotation : Option String
deriving DecidableEq

/-- An argparse rejection: the argument at fault and the message shown. -/
structure ArgError : Type where
  field : String
  message : String
deriving DecidableEq

/-- The message argparse prints for a value outside `choices=`
(`invalid choice: %r (choose from ', '.join(repr(c)))`), whose choice
listing coincides with `pretty_choice_list`. -/
def invalid_choice_message (dest value : String) (choices : List String) : String :=
  "argument --" ++ dest ++ ": invalid choice: \x27" ++ value ++
    "\x27 (choose from " ++ pretty_choice_list choices ++ ")"

/-- The `choices=` check declared by `@utils.arg('--weekly', choices=DAY_CHOICES)`
and `@utils.arg('--daily', choices=HOUR_CHOICES)`: argparse accepts an
absent option, accepts a present value exactly when it is a member of
the choice list, and otherwise aborts parsing with the invalid-choice
error — before the command body (and hence any request) runs. -/
def check_choices (dest : String) (choices : List String) :
    Option String → Except ArgError Unit
  | none => Except.ok ()
  | some v =>
      if v ∈ choices then Except.ok ()
      else Except.error ⟨dest, invalid_choice_message dest v choices⟩

/-- Argument parsing for `do_backup_schedule`: the two `choices=`
constraints, in declaration order. -/
def parse_args (a : Args) : Except ArgError Args :=
  match check_choices "weekly" DAY_CHOICES a.weekly with
  | Except.error e => Except.error e
  | Except.ok _ =>
    match check_choices "daily" HOUR_CHOICES a.daily with
    | Except.error e => Except.error e
    | Except.ok _ => Except.ok a

/-- Lines 150–158: the `backup` dict.  `args.daily` / `args.weekly` are
tested for Python truthiness (`if args.daily:` — absent or empty means
skipped) and upper-cased; `args.enabled` / `args.rotation` are tested
with `is not None` (so `False` and `"0"` both count as overrides), and
`rotation` is stored as the raw string. -/
def build_backup (a : Args) : JDoc :=
  (match a.daily with
   | some s => if s = "" then [] else [("daily", JVal.jStr (py_upper s))]
   | none => []) ++
  (match a.weekly with
   | some s => if s = "" then [] else [("weekly", JVal.jStr (py_upper s))]
   | none => []) ++
  (match a.enabled with
   | some b => [("enabled", JVal.jBool b)]
   | none => []) ++
  (match a.rotation with
   | some s => [("rotation", JVal.jStr s)]
   | none => [])

/-- `backup_schedule.update(**backup)`: keyword passing — each of the
four parameters is bound iff its key is in the dict. -/
def kwargs_of_backup (backup : JDoc) : UpdateKwargs :=
  ⟨dictLookup "enabled" backup, dictLookup "weekly" backup,
   dictLookup "daily" backup, dictLookup "rotation" backup⟩

/-- What one CLI invocation did: the requests it issued, in order, and
the document it printed (`utils.print_dict(backup_schedule._info)`),
if any. -/
structure CliResult : Type where
  requests : List Request
  printed : Option JDoc
deriving DecidableEq

/-- The body of `do_backup_schedule` after argument parsing: fetch the
schedule (`fetched` is the document the GET returned, the resource's
`_info`); if the `backup` dict is non-empty, POST the update, else
print the fetched document. -/
def do_backup_schedule (serverId : String) (fetched : JDoc) (a : Args) :
    CliResult :=
  let backup := build_backup a
  if backup ≠ [] then
    ⟨[Request.get (schedule_url serverId),
      BackupSchedule.update serverId fetched (kwargs_of_backup backup)],
     none⟩
  else
    ⟨[Request.get (schedule_url serverId)], some fetched⟩

/-- A full invocation of the show/update command: argparse runs first,
so a choices rejection reaches no code that issues requests. -/
def run_backup_schedule (serverId : String) (fetched : JDoc) (a : Args) :
    Except ArgError CliResult :=
  match parse_args a with
  | Except.error e => Except.error e
  | Except.ok a2 => Except.ok (do_backup_schedule serverId fetched a2)

/-- The requests an invocation issued (none when parsing failed). -/
def requests_of : Except ArgError CliResult → List Request
  | Except.error _ => []
  | Except.ok r => r.requests

/-- `do_backup_schedule_delete`: fetch the schedule resource, then
delete it (`...get(server).delete()`). -/
def do_backup_schedule_delete (serverId : String) : List Request :=
  [Request.get (schedule_url serverId),
   BackupScheduleManager.delete serverId]

/-- A schedule as four named fields, for stating merge behaviour. -/
structure ScheduleFields : Type where
  enabled : JVal
  weekly : JVal
  daily : JVal
  rotation : JVal
deriving DecidableEq

/-- The merge operation as the spec words it (spec-side definition,
for comparison with the code): field-by-field, the override value if
provided, else the base's value. -/
def spec_merge (base : ScheduleFields) (kw : UpdateKwargs) : ScheduleFields :=
  ⟨kw.enabled.getD base.enabled, kw.weekly.getD base.weekly,
   kw.daily.getD base.daily, kw.rotation.getD base.rotation⟩

/-- The four fields laid out as the wire document. -/
def wire_doc (s : ScheduleFields) : JDoc :=
  [("enabled", s.enabled), ("weekly", s.weekly),
   ("daily", s.daily), ("rotation", s.rotation)]

/-- The literal defaults of `BackupSchedule.update`'s signature. -/
def code_defaults : ScheduleFields :=
  ⟨JVal.jBool true, JVal.jStr "disabled", JVal.jStr "disabled", JVal.jInt 0⟩

/-- Is the request a write (POST or DELETE)? -/
def isWrite : Request → Bool
  | Request.get _ => false
  | Request.post _ _ => true
  | Request.del _ => true

/-- Is the request a GET? -/
def isGet : Request → Bool
  | Request.get _ => true
  | Request.post _ _ => false
  | Request.del _ => false

/-! ## Helper lemmas -/

/-- A value that passes a `choices=` check is a member of the choice list. -/
theorem check_choices_ok (dest : String) (choices : List String) (v : Option String)
    (u : Unit) (h : check_choices dest choices v = Except.ok u) :
    ∀ s, v = some s → s ∈ choices := by
  intro s hs; subst hs
  by_cases hm : s ∈ choices
  · exact hm
  · simp [check_choices, hm] at h

/-- Successful parsing returns the arguments unchanged and certifies the
two choice constraints. -/
theorem parse_args_ok (a a2 : Args) (h : parse_args a = Except.ok a2) :
    a2 = a ∧ (∀ s, a.weekly = some s → s ∈ DAY_CHOICES) ∧
      (∀ s, a.daily = some s → s ∈ HOUR_CHOICES) := by
  revert h; unfold parse_args
  cases hw : check_choices "weekly" DAY_CHOICES a.weekly with
  | error e => intro h; exact Except.noConfusion h
  | ok u =>
    cases hd : check_choices "daily" HOUR_CHOICES a.daily with
    | error e => intro h; exact Except.noConfusion h
    | ok u2 =>
      intro h
      injection h with h
      exact ⟨h.symm, check_choices_ok _ _ _ _ hw, check_choices_ok _ _ _ _ hd⟩

/-- A successful invocation went through the command body on the parsed
arguments. -/
theorem run_ok_shape (serverId : String) (fetched : JDoc) (a : Args) (res : CliResult)
    (hrun : run_backup_schedule serverId fetched a = Except.ok res) :
    (∀ s, a.weekly = some s → s ∈ DAY_CHOICES) ∧
      (∀ s, a.daily = some s → s ∈ HOUR_CHOICES) ∧
      res = do_backup_schedule serverId fetched a := by
  unfold run_backup_schedule at hrun
  cases hp : parse_args a with
  | error e => rw [hp] at hrun; exact Except.noConfusion hrun
  | ok a2 =>
    rw [hp] at hrun
    injection hrun with hrun
    obtain ⟨ha2, hwk, hdl⟩ := parse_args_ok a a2 hp
    rw [ha2] at hrun
    exact ⟨hwk, hdl, hrun.symm⟩

/-- The `weekly` entry of the `backup` dict: present iff the argument is
truthy, upper-cased. -/
theorem dictLookup_weekly_build (a : Args) :
    dictLookup "weekly" (build_backup a) =
      (match a.weekly with
       | some s => if s = "" then none else some (JVal.jStr (py_upper s))
       | none => none) := by
  rcases a with ⟨srv, en, wk, dl, rot⟩
  cases en <;> cases wk <;> cases dl <;> cases rot <;>
    simp only [build_backup] <;> (try split_ifs) <;> rfl

/-- The `daily` entry of the `backup` dict: present iff the argument is
truthy, upper-cased. -/
theorem dictLookup_daily_build (a : Args) :
    dictLookup "daily" (build_backup a) =
      (match a.daily with
       | some s => if s = "" then none else some (JVal.jStr (py_upper s))
       | none => none) := by
  rcases a with ⟨srv, en, wk, dl, rot⟩
  cases en <;> cases wk <;> cases dl <;> cases rot <;>
    simp only [build_backup] <;> (try split_ifs) <;> rfl

/-- Every member of `DAY_CHOICES` is already upper-case and non-empty. -/
theorem day_members : ∀ s ∈ DAY_CHOICES, py_upper s = s ∧ s ≠ "" := by decide

/-- Every member of `HOUR_CHOICES` is already upper-case and non-empty. -/
theorem hour_members : ∀ s ∈ HOUR_CHOICES, py_upper s = s ∧ s ≠ "" := by decide

/-- `BackupSchedule.update` as a POST of the overrides coalesced with the
signature defaults. -/
theorem update_as_post (serverId : String) (info : JDoc) (kw : UpdateKwargs) :
    BackupSchedule.update serverId info kw =
      Request.post (schedule_url serverId)
        [("backupSchedule", wire_doc (spec_merge code_defaults kw))] := rfl

theorem weekly_build_none (a : Args) (h : a.weekly = none) :
    dictLookup "weekly" (build_backup a) = none := by
  rw [dictLookup_weekly_build, h]

theorem weekly_build_some (a : Args) (s : String) (h : a.weekly = some s) (hne : s ≠ "") :
    dictLookup "weekly" (build_backup a) = some (JVal.jStr (py_upper s)) := by
  rw [dictLookup_weekly_build, h]
  show (if s = "" then none else some (JVal.jStr (py_upper s))) = some (JVal.jStr (py_upper s))
  rw [if_neg hne]

theorem daily_build_none (a : Args) (h : a.daily = none) :
    dictLookup "daily" (build_backup a) = none := by
  rw [dictLookup_daily_build, h]

theorem daily_build_some (a : Args) (s : String) (h : a.daily = some s) (hne : s ≠ "") :
    dictLookup "daily" (build_backup a) = some (JVal.jStr (py_upper s)) := by
  rw [dictLookup_daily_build, h]
  show (if s = "" then none else some (JVal.jStr (py_upper s))) = some (JVal.jStr (py_upper s))
  rw [if_neg hne]

/-- Any `backupSchedule` POST a successful invocation issued carries the
overrides coalesced with the signature defaults. -/
theorem posted_doc_eq (serverId : String) (fetched : JDoc) (a : Args) (res : CliResult)
    (hrun : run_backup_schedule serverId fetched a = Except.ok res)
    (doc : JDoc)
    (hmem : Request.post (schedule_url serverId) [("backupSchedule", doc)] ∈ res.requests) :
    doc = wire_doc (spec_merge code_defaults (kwargs_of_backup (build_backup a))) := by
  obtain ⟨hwk, hdl, hres⟩ := run_ok_shape serverId fetched a res hrun
  subst hres
  unfold do_backup_schedule at hmem
  by_cases hb : build_backup a ≠ []
  · rw [if_pos hb] at hmem
    have hmem2 : Request.post (schedule_url serverId) [("backupSchedule", doc)] ∈
        [Request.get (schedule_url serverId),
         BackupSchedule.update serverId fetched (kwargs_of_backup (build_backup a))] := hmem
    rcases List.mem_cons.mp hmem2 with h | h
    · exact Request.noConfusion h
    · rcases List.mem_singleton.mp h with h2
      rw [update_as_post] at h2
      injection h2 with hurl hbody
      injection hbody with hpair hnil
      exact congrArg Prod.snd hpair
  · rw [if_neg hb] at hmem
    have hmem2 : Request.post (schedule_url serverId) [("backupSchedule", doc)] ∈
        [Request.get (schedule_url serverId)] := hmem
    exact Request.noConfusion (List.mem_singleton.mp hmem2)

/-! ## The claims -/

/-- Claim C1 (corrected).  The claim says the submitted document equals
the fetched base B on every field absent from the override set P; in the
code, `BackupSchedule.update` never reads the fetched base — a field
absent from P gets the literal signature default (enabled=true,
weekly='disabled', daily='disabled', rotation=0).  At the claim's own
scenario (base enabled=true, weekly=SUNDAY, daily=DISABLED, rotation=2;
override daily=H_0200_0400) the submitted document is enabled=true,
weekly='disabled', daily=H_0200_0400, rotation=0, not the merge the
claim states. -/
theorem C1_counterexample :
    requests_of (run_backup_schedule "42"
        (wire_doc ⟨JVal.jBool true, JVal.jStr "SUNDAY", JVal.jStr "DISABLED", JVal.jInt 2⟩)
        ⟨"42", none, none, some "H_0200_0400", none⟩) =
      [Request.get "/servers/42/backup_schedule",
       Request.post "/servers/42/backup_schedule"
         [("backupSchedule",
           [("enabled", JVal.jBool true), ("weekly", JVal.jStr "disabled"),
            ("daily", JVal.jStr "H_0200_0400"), ("rotation", JVal.jInt 0)])]] ∧
    ([("enabled", JVal.jBool true), ("weekly", JVal.jStr "disabled"),
      ("daily", JVal.jStr "H_0200_0400"), ("rotation", JVal.jInt 0)] : JDoc) ≠
      wire_doc (spec_merge
        ⟨JVal.jBool true, JVal.jStr "SUNDAY", JVal.jStr "DISABLED", JVal.jInt 2⟩
        ⟨none, none, some (JVal.jStr "H_0200_0400"), none⟩) :=
  ⟨rfl, by decide⟩

/-- Claim C1, amended: for every base schedule and every partial override
set P, the document submitted by the update operation equals P on every
field present in P and equals the fixed signature defaults (enabled=true,
weekly='disabled', daily='disabled', rotation=0) on every field absent
from P; the fetched base is ignored entirely. -/
theorem C1_update_merges_overrides_into_fixed_defaults :
    ∀ (serverId : String) (info info2 : JDoc) (kw : UpdateKwargs),
      BackupSchedule.update serverId info kw =
        Request.post (schedule_url serverId)
          [("backupSchedule", wire_doc (spec_merge code_defaults kw))] ∧
      BackupSchedule.update serverId info kw = BackupSchedule.update serverId info2 kw :=
  fun _ _ _ _ => ⟨rfl, rfl⟩

/-- Claim C2 (corrected).  The claim says every submitted document's
weekly and daily values lie in the fixed upper-case vocabularies, even
for fields the user did not supply; in the code a field the user does
not supply is sent as the lower-case string 'disabled', which is not a
member of `DAY_CHOICES` (nor of `HOUR_CHOICES`). -/
theorem C2_counterexample :
    requests_of (run_backup_schedule "7" [] ⟨"7", none, none, some "H_0200_0400", none⟩) =
      [Request.get "/servers/7/backup_schedule",
       Request.post "/servers/7/backup_schedule"
         [("backupSchedule",
           [("enabled", JVal.jBool true), ("weekly", JVal.jStr "disabled"),
            ("daily", JVal.jStr "H_0200_0400"), ("rotation", JVal.jInt 0)])]] ∧
    "disabled" ∉ DAY_CHOICES ∧ "disabled" ∉ HOUR_CHOICES :=
  ⟨rfl, by decide, by decide⟩

/-- Claim C2, amended: in every document a successful invocation POSTs,
a weekly (resp. daily) field the user supplied carries an upper-case
member of `DAY_CHOICES` (resp. `HOUR_CHOICES`), while a field the user
did not supply carries the lower-case string 'disabled', which lies
outside the vocabularies. -/
theorem C2_wire_values :
    ∀ (serverId : String) (fetched : JDoc) (a : Args) (res : CliResult),
      run_backup_schedule serverId fetched a = Except.ok res →
      ∀ doc : JDoc,
        Request.post (schedule_url serverId) [("backupSchedule", doc)] ∈ res.requests →
        ((a.weekly = none ∧ dictLookup "weekly" doc = some (JVal.jStr "disabled")) ∨
          ∃ s ∈ DAY_CHOICES, dictLookup "weekly" doc = some (JVal.jStr s)) ∧
        ((a.daily = none ∧ dictLookup "daily" doc = some (JVal.jStr "disabled")) ∨
          ∃ s ∈ HOUR_CHOICES, dictLookup "daily" doc = some (JVal.jStr s)) := by
  intro serverId fetched a res hrun doc hmem
  obtain ⟨hwk, hdl, -⟩ := run_ok_shape serverId fetched a res hrun
  have hdoc := posted_doc_eq serverId fetched a res hrun doc hmem
  constructor
  · cases hcw : a.weekly with
    | none =>
      refine Or.inl ⟨rfl, ?_⟩
      rw [hdoc]
      show some ((dictLookup "weekly" (build_backup a)).getD (JVal.jStr "disabled")) =
        some (JVal.jStr "disabled")
      rw [weekly_build_none a hcw]
      rfl
    | some s =>
      have hs := hwk s hcw
      obtain ⟨hup, hne⟩ := day_members s hs
      refine Or.inr ⟨s, hs, ?_⟩
      rw [hdoc]
      show some ((dictLookup "weekly" (build_backup a)).getD (JVal.jStr "disabled")) =
        some (JVal.jStr s)
      rw [weekly_build_some a s hcw hne, hup]
      rfl
  · cases hcd : a.daily with
    | none =>
      refine Or.inl ⟨rfl, ?_⟩
      rw [hdoc]
      show some ((dictLookup "daily" (build_backup a)).getD (JVal.jStr "disabled")) =
        some (JVal.jStr "disabled")
      rw [daily_build_none a hcd]
      rfl
    | some s =>
      have hs := hdl s hcd
      obtain ⟨hup, hne⟩ := hour_members s hs
      refine Or.inr ⟨s, hs, ?_⟩
      rw [hdoc]
      show some ((dictLookup "daily" (build_backup a)).getD (JVal.jStr "disabled")) =
        some (JVal.jStr s)
      rw [daily_build_some a s hcd hne, hup]
      rfl

/-- Witness for C2's amended theorem, at the invocation `--weekly MONDAY`
on server 9. -/
theorem C2_wire_values_witness :
    (((⟨"9", none, some "MONDAY", none, none⟩ : Args).weekly = none ∧
        dictLookup "weekly"
          [("enabled", JVal.jBool true), ("weekly", JVal.jStr "MONDAY"),
           ("daily", JVal.jStr "disabled"), ("rotation", JVal.jInt 0)] =
          some (JVal.jStr "disabled")) ∨
      ∃ s ∈ DAY_CHOICES,
        dictLookup "weekly"
          [("enabled", JVal.jBool true), ("weekly", JVal.jStr "MONDAY"),
           ("daily", JVal.jStr "disabled"), ("rotation", JVal.jInt 0)] =
          some (JVal.jStr s)) ∧
    (((⟨"9", none, some "MONDAY", none, none⟩ : Args).daily = none ∧
        dictLookup "daily"
          [("enabled", JVal.jBool true), ("weekly", JVal.jStr "MONDAY"),
           ("daily", JVal.jStr "disabled"), ("rotation", JVal.jInt 0)] =
          some (JVal.jStr "disabled")) ∨
      ∃ s ∈ HOUR_CHOICES,
        dictLookup "daily"
          [("enabled", JVal.jBool true), ("weekly", JVal.jStr "MONDAY"),
           ("daily", JVal.jStr "disabled"), ("rotation", JVal.jInt 0)] =
          some (JVal.jStr s)) :=
  C2_wire_values "9" [] ⟨"9", none, some "MONDAY", none, none⟩
    ⟨[Request.get "/servers/9/backup_schedule",
      Request.post "/servers/9/backup_schedule"
        [("backupSchedule",
          [("enabled", JVal.jBool true), ("weekly", JVal.jStr "MONDAY"),
           ("daily", JVal.jStr "disabled"), ("rotation", JVal.jInt 0)])]], none⟩
    rfl
    [("enabled", JVal.jBool true), ("weekly", JVal.jStr "MONDAY"),
     ("daily", JVal.jStr "disabled"), ("rotation", JVal.jInt 0)]
    (by decide)

/-- Claim C3 (corrected).  The claim says a negative or non-numeric
rotation override is rejected with a ValidationError before any network
call; in the code `--rotation` has no `type=`, no `choices=` and no
check at all — the invocation with rotation `-3` succeeds and POSTs the
raw string on the wire. -/
theorem C3_counterexample :
    run_backup_schedule "3" [] ⟨"3", none, none, none, some "-3"⟩ =
      Except.ok ⟨[Request.get "/servers/3/backup_schedule",
        Request.post "/servers/3/backup_schedule"
          [("backupSchedule",
            [("enabled", JVal.jBool true), ("weekly", JVal.jStr "disabled"),
             ("daily", JVal.jStr "disabled"), ("rotation", JVal.jStr "-3")])]], none⟩ := rfl

/-- Claim C3, amended: no rotation validation exists — every rotation
string the user supplies (zero, positive, negative or non-numeric alike)
is accepted without error and sent on the wire unchanged, as the raw
argument string. -/
theorem C3_rotation_passed_through :
    ∀ (serverId srv : String) (fetched : JDoc) (s : String),
      run_backup_schedule serverId fetched ⟨srv, none, none, none, some s⟩ =
        Except.ok ⟨[Request.get (schedule_url serverId),
          Request.post (schedule_url serverId)
            [("backupSchedule",
              [("enabled", JVal.jBool true), ("weekly", JVal.jStr "disabled"),
               ("daily", JVal.jStr "disabled"), ("rotation", JVal.jStr s)])]], none⟩ :=
  fun _ _ _ _ => rfl

/-- Claim C4 (confirmed): a weekly override outside `DAY_CHOICES` (and,
when weekly passes, a daily override outside `HOUR_CHOICES`) aborts the
invocation with an error naming the offending option and listing the
allowed values as a comma-separated quoted list, and no request is
issued. -/
theorem C4_invalid_choice_rejected :
    ∀ (serverId : String) (fetched : JDoc) (a : Args),
      (∀ w, a.weekly = some w → w ∉ DAY_CHOICES →
        run_backup_schedule serverId fetched a =
          Except.error ⟨"weekly",
            "argument --weekly: invalid choice: \x27" ++ w ++ "\x27 (choose from " ++
              pretty_choice_list DAY_CHOICES ++ ")"⟩ ∧
        requests_of (run_backup_schedule serverId fetched a) = []) ∧
      (∀ d, (∀ w, a.weekly = some w → w ∈ DAY_CHOICES) → a.daily = some d →
        d ∉ HOUR_CHOICES →
        run_backup_schedule serverId fetched a =
          Except.error ⟨"daily",
            "argument --daily: invalid choice: \x27" ++ d ++ "\x27 (choose from " ++
              pretty_choice_list HOUR_CHOICES ++ ")"⟩ ∧
        requests_of (run_backup_schedule serverId fetched a) = []) := by
  intro serverId fetched a
  constructor
  · intro w hw hnot
    have hcheck : check_choices "weekly" DAY_CHOICES a.weekly =
        Except.error ⟨"weekly", invalid_choice_message "weekly" w DAY_CHOICES⟩ := by
      rw [hw]; simp [check_choices, hnot]
    have hrun : run_backup_schedule serverId fetched a =
        Except.error ⟨"weekly", invalid_choice_message "weekly" w DAY_CHOICES⟩ := by
      unfold run_backup_schedule parse_args
      rw [hcheck]
    exact ⟨hrun, by rw [hrun]; rfl⟩
  · intro d hvalid hd hnot
    have hcw : check_choices "weekly" DAY_CHOICES a.weekly = Except.ok () := by
      cases hcase : a.weekly with
      | none => rfl
      | some w => simp [check_choices, hvalid w hcase]
    have hcd : check_choices "daily" HOUR_CHOICES a.daily =
        Except.error ⟨"daily", invalid_choice_message "daily" d HOUR_CHOICES⟩ := by
      rw [hd]; simp [check_choices, hnot]
    have hrun : run_backup_schedule serverId fetched a =
        Except.error ⟨"daily", invalid_choice_message "daily" d HOUR_CHOICES⟩ := by
      unfold run_backup_schedule parse_args
      rw [hcw, hcd]
    exact ⟨hrun, by rw [hrun]; rfl⟩

/-- Witness for C4, at the spec's own scenario `--weekly FUNDAY`. -/
theorem C4_invalid_choice_rejected_witness :
    run_backup_schedule "8" [] ⟨"8", none, some "FUNDAY", none, none⟩ =
      Except.error ⟨"weekly",
        "argument --weekly: invalid choice: \x27FUNDAY\x27 (choose from " ++
          pretty_choice_list DAY_CHOICES ++ ")"⟩ ∧
    requests_of (run_backup_schedule "8" [] ⟨"8", none, some "FUNDAY", none, none⟩) = [] :=
  (C4_invalid_choice_rejected "8" [] ⟨"8", none, some "FUNDAY", none, none⟩).1
    "FUNDAY" rfl (by decide)

/-- Claim C5 (corrected).  The claim says weekly/daily input is accepted
case-insensitively; in the code the `choices=` constraint admits only
the exact upper-case members, so lower-case input such as 'sunday' or
'h_0200_0400' is rejected at parsing with an invalid-choice error. -/
theorem C5_counterexample :
    run_backup_schedule "4" [] ⟨"4", none, some "sunday", none, none⟩ =
      Except.error ⟨"weekly", invalid_choice_message "weekly" "sunday" DAY_CHOICES⟩ ∧
    run_backup_schedule "4" [] ⟨"4", none, none, some "h_0200_0400", none⟩ =
      Except.error ⟨"daily", invalid_choice_message "daily" "h_0200_0400" HOUR_CHOICES⟩ :=
  ⟨rfl, rfl⟩

/-- Claim C5, amended: a weekly or daily override is accepted only as an
exact upper-case member of its vocabulary; the command's subsequent
upper-casing is the identity on every accepted value, which is then
placed verbatim in the wire document. -/
theorem C5_uppercase_members_only :
    ∀ (serverId srv : String) (fetched : JDoc) (s : String),
      (s ∈ DAY_CHOICES →
        py_upper s = s ∧
        run_backup_schedule serverId fetched ⟨srv, none, some s, none, none⟩ =
          Except.ok ⟨[Request.get (schedule_url serverId),
            Request.post (schedule_url serverId)
              [("backupSchedule",
                [("enabled", JVal.jBool true), ("weekly", JVal.jStr s),
                 ("daily", JVal.jStr "disabled"), ("rotation", JVal.jInt 0)])]], none⟩) ∧
      (s ∈ HOUR_CHOICES →
        py_upper s = s ∧
        run_backup_schedule serverId fetched ⟨srv, none, none, some s, none⟩ =
          Except.ok ⟨[Request.get (schedule_url serverId),
            Request.post (schedule_url serverId)
              [("backupSchedule",
                [("enabled", JVal.jBool true), ("weekly", JVal.jStr "disabled"),
                 ("daily", JVal.jStr s), ("rotation", JVal.jInt 0)])]], none⟩) := by
  intro serverId srv fetched s
  constructor
  · intro h
    have h2 : s ∈ ["DISABLED", "SUNDAY", "MONDAY", "TUESDAY", "WEDNESDAY",
        "THURSDAY", "FRIDAY", "SATURDAY"] := h
    fin_cases h2 <;> exact ⟨rfl, rfl⟩
  · intro h
    have h2 : s ∈ ["DISABLED", "H_0000_0200", "H_0200_0400", "H_0400_0600",
        "H_0600_0800", "H_0800_1000", "H_1000_1200", "H_1200_1400",
        "H_1400_1600", "H_1600_1800", "H_1800_2000", "H_2000_2200",
        "H_2200_0000"] := h
    fin_cases h2 <;> exact ⟨rfl, rfl⟩

/-- Witness for C5's amended theorem, at `--weekly MONDAY`. -/
theorem C5_uppercase_members_only_witness :
    py_upper "MONDAY" = "MONDAY" ∧
    run_backup_schedule "6" [] ⟨"6", none, some "MONDAY", none, none⟩ =
      Except.ok ⟨[Request.get "/servers/6/backup_schedule",
        Request.post "/servers/6/backup_schedule"
          [("backupSchedule",
            [("enabled", JVal.jBool true), ("weekly", JVal.jStr "MONDAY"),
             ("daily", JVal.jStr "disabled"), ("rotation", JVal.jInt 0)])]], none⟩ :=
  (C5_uppercase_members_only "6" "6" [] "MONDAY").1 (by decide)

/-- Claim C6 (confirmed): the manager's update operation is the very
same function as its create operation (`update = create`), so for every
server and argument tuple both produce the identical POST, with the
identical body, to the same schedule endpoint. -/
theorem C6_update_is_create :
    ∀ (serverId : String) (enabled weekly daily rotation : JVal),
      BackupScheduleManager.update serverId enabled weekly daily rotation =
        BackupScheduleManager.create serverId enabled weekly daily rotation ∧
      BackupScheduleManager.update serverId enabled weekly daily rotation =
        Request.post (schedule_url serverId)
          [("backupSchedule",
            [("enabled", enabled), ("weekly", weekly),
             ("daily", daily), ("rotation", rotation)])] :=
  fun _ _ _ _ _ => ⟨rfl, rfl⟩

/-- Claim C7 (confirmed): the read issues GET /servers/serverId/backup_schedule
and returns the document under the response's 'backupSchedule' key, and
the write issues POST to the same path with body carrying a single
'backupSchedule' key whose document holds exactly the four fields
enabled, weekly, daily, rotation. -/
theorem C7_endpoints_and_payload :
    ∀ (serverId : String) (response : List (String × JDoc)) (e w d r : JVal),
      BackupScheduleManager.get serverId response =
        (Request.get ("/servers/" ++ serverId ++ "/backup_schedule"),
          dictLookup "backupSchedule" response) ∧
      (∀ doc rest, response = ("backupSchedule", doc) :: rest →
        (BackupScheduleManager.get serverId response).2 = some doc) ∧
      BackupScheduleManager.create serverId e w d r =
        Request.post ("/servers/" ++ serverId ++ "/backup_schedule")
          [("backupSchedule",
            [("enabled", e), ("weekly", w), ("daily", d), ("rotation", r)])] ∧
      ([("enabled", e), ("weekly", w), ("daily", d), ("rotation", r)] : JDoc).map Prod.fst =
        ["enabled", "weekly", "daily", "rotation"] := by
  intro serverId response e w d r
  refine ⟨rfl, ?_, rfl, rfl⟩
  intro doc rest h
  rw [h]
  rfl

/-- Claim C8 (corrected).  The claim's pure-read part holds, but its
round-trip part fails: applying the update path to an empty override set
does not reproduce the fetched document — it produces the fixed default
document, which differs from the fetched base here on weekly, daily and
rotation. -/
theorem C8_counterexample :
    BackupSchedule.update "5"
        [("enabled", JVal.jBool true), ("weekly", JVal.jStr "SUNDAY"),
         ("daily", JVal.jStr "DISABLED"), ("rotation", JVal.jInt 2)]
        ⟨none, none, none, none⟩ =
      Request.post "/servers/5/backup_schedule"
        [("backupSchedule",
          [("enabled", JVal.jBool true), ("weekly", JVal.jStr "disabled"),
           ("daily", JVal.jStr "disabled"), ("rotation", JVal.jInt 0)])] ∧
    ([("enabled", JVal.jBool true), ("weekly", JVal.jStr "disabled"),
      ("daily", JVal.jStr "disabled"), ("rotation", JVal.jInt 0)] : JDoc) ≠
      [("enabled", JVal.jBool true), ("weekly", JVal.jStr "SUNDAY"),
       ("daily", JVal.jStr "DISABLED"), ("rotation", JVal.jInt 2)] :=
  ⟨rfl, by decide⟩

/-- Claim C8, amended: when no overrides are given the invocation is a
pure read — the fetched document is printed key-by-value and no write is
sent; the no-op round-trip equality fails, however, because the update
path applied to an empty override set submits the fixed default
document, not the document last fetched. -/
theorem C8_noop_pure_read :
    ∀ (serverId srv : String) (fetched : JDoc),
      run_backup_schedule serverId fetched ⟨srv, none, none, none, none⟩ =
        Except.ok ⟨[Request.get (schedule_url serverId)], some fetched⟩ ∧
      BackupSchedule.update serverId fetched ⟨none, none, none, none⟩ =
        Request.post (schedule_url serverId)
          [("backupSchedule", wire_doc code_defaults)] :=
  fun _ _ _ => ⟨rfl, rfl⟩

/-- Claim C9 (confirmed): every successful show/update invocation issues
exactly one GET of the schedule, first, followed by at most one write
request; the delete command issues the GET of the schedule and then the
DELETE. -/
theorem C9_read_then_at_most_one_write :
    ∀ (serverId : String) (fetched : JDoc) (a : Args) (res : CliResult),
      run_backup_schedule serverId fetched a = Except.ok res →
      (res.requests.filter isGet).length = 1 ∧
      (res.requests.filter isWrite).length ≤ 1 ∧
      (∃ rest, res.requests = Request.get (schedule_url serverId) :: rest ∧
        ∀ q ∈ rest, isWrite q = true) ∧
      do_backup_schedule_delete serverId =
        [Request.get (schedule_url serverId), Request.del (schedule_url serverId)] := by
  intro serverId fetched a res hrun
  obtain ⟨-, -, hres⟩ := run_ok_shape serverId fetched a res hrun
  subst hres
  unfold do_backup_schedule
  by_cases hb : build_backup a ≠ []
  · rw [if_pos hb]
    refine ⟨rfl, Nat.le_of_eq rfl,
      ⟨[BackupSchedule.update serverId fetched (kwargs_of_backup (build_backup a))],
        rfl, ?_⟩, rfl⟩
    intro q hq
    rw [List.mem_singleton.mp hq]
    rfl
  · rw [if_neg hb]
    exact ⟨rfl, Nat.zero_le 1,
      ⟨[], rfl, fun q hq => absurd hq (List.not_mem_nil q)⟩, rfl⟩

/-- Witness for C9, at the invocation `--rotation 2` on server 7. -/
theorem C9_read_then_at_most_one_write_witness :
    ((⟨[Request.get "/servers/7/backup_schedule",
         Request.post "/servers/7/backup_schedule"
           [("backupSchedule",
             [("enabled", JVal.jBool true), ("weekly", JVal.jStr "disabled"),
              ("daily", JVal.jStr "disabled"), ("rotation", JVal.jStr "2")])]],
        none⟩ : CliResult).requests.filter isGet).length = 1 ∧
    ((⟨[Request.get "/servers/7/backup_schedule",
         Request.post "/servers/7/backup_schedule"
           [("backupSchedule",
             [("enabled", JVal.jBool true), ("weekly", JVal.jStr "disabled"),
              ("daily", JVal.jStr "disabled"), ("rotation", JVal.jStr "2")])]],
        none⟩ : CliResult).requests.filter isWrite).length ≤ 1 ∧
    (∃ rest,
        (⟨[Request.get "/servers/7/backup_schedule",
            Request.post "/servers/7/backup_schedule"
              [("backupSchedule",
                [("enabled", JVal.jBool true), ("weekly", JVal.jStr "disabled"),
                 ("daily", JVal.jStr "disabled"), ("rotation", JVal.jStr "2")])]],
           none⟩ : CliResult).requests = Request.get (schedule_url "7") :: rest ∧
        ∀ q ∈ rest, isWrite q = true) ∧
    do_backup_schedule_delete "7" =
      [Request.get (schedule_url "7"), Request.del (schedule_url "7")] :=
  C9_read_then_at_most_one_write "7" [] ⟨"7", none, none, none, some "2"⟩
    ⟨[Request.get "/servers/7/backup_schedule",
      Request.post "/servers/7/backup_schedule"
        [("backupSchedule",
          [("enabled", JVal.jBool true), ("weekly", JVal.jStr "disabled"),
           ("daily", JVal.jStr "disabled"), ("rotation", JVal.jStr "2")])]], none⟩
    rfl

/-- Claim C10 (confirmed): at the CLI boundary, override presence is
decided per field — daily and weekly count as overridden exactly when
their value is truthy (present and non-empty), while enabled and
rotation count as overridden exactly when their parsed value is present
at all (so `--disable`'s false and rotation "0" are overrides). -/
theorem C10_override_presence :
    ∀ a : Args,
      ("daily" ∈ (build_backup a).map Prod.fst ↔ ∃ s, a.daily = some s ∧ s ≠ "") ∧
      ("weekly" ∈ (build_backup a).map Prod.fst ↔ ∃ s, a.weekly = some s ∧ s ≠ "") ∧
      ("enabled" ∈ (build_backup a).map Prod.fst ↔ a.enabled ≠ none) ∧
      ("rotation" ∈ (build_backup a).map Prod.fst ↔ a.rotation ≠ none) := by
  intro a
  rcases a with ⟨srv, en, wk, dl, rot⟩
  cases en <;> cases wk <;> cases dl <;> cases rot <;>
    simp [build_backup]

/-- Witness for C10, at `--disable --daily H_0000_0200 --rotation 0`. -/
theorem C10_override_presence_witness :
    ("daily" ∈ (build_backup ⟨"1", some false, none, some "H_0000_0200", some "0"⟩).map Prod.fst ↔
      ∃ s, (⟨"1", some false, none, some "H_0000_0200", some "0"⟩ : Args).daily = some s ∧ s ≠ "") ∧
    ("weekly" ∈ (build_backup ⟨"1", some false, none, some "H_0000_0200", some "0"⟩).map Prod.fst ↔
      ∃ s, (⟨"1", some false, none, some "H_0000_0200", some "0"⟩ : Args).weekly = some s ∧ s ≠ "") ∧
    ("enabled" ∈ (build_backup ⟨"1", some false, none, some "H_0000_0200", some "0"⟩).map Prod.fst ↔
      (⟨"1", some false, none, some "H_0000_0200", some "0"⟩ : Args).enabled ≠ none) ∧
    ("rotation" ∈ (build_backup ⟨"1", some false, none, some "H_0000_0200", some "0"⟩).map Prod.fst ↔
      (⟨"1", some false, none, some "H_0000_0200", some "0"⟩ : Args).rotation ≠ none) :=
  C10_override_presence ⟨"1", some false, none, some "H_0000_0200", some "0"⟩

end RaxBackupSchedule
